import Mathlib

/-!
Verification of the adverse-media browser worker (the durable task-queue and
capture subsystem of the INSTAKYC_SCREENING repository) against its
natural-language specification.

The JavaScript service (Express app, BullMQ / in-process queue drivers,
Puppeteer capture executor, artifact store, retention cleanup script) is
shallowly embedded below.  Pure fragments become Lean functions; stateful
fragments become explicit state passing; the outcomes of external effects
(browser protocol calls, file probes) are supplied as explicit oracles.
-/

namespace AdverseMedia

/-! ## JavaScript value model

The Express handlers receive JSON bodies whose fields may be absent or of the
wrong type; JavaScript truthiness drives the validation code, so we model the
relevant slice of JS values and their truthiness. -/

inductive JSValue where
  | vstr (s : String)
  | vnum (n : Int)
  | vbool (b : Bool)
  | vnull
  | vundef
  | vobj
  deriving Repr, DecidableEq

/-- JavaScript truthiness of a value (objects are always truthy). -/
def JSValue.truthy : JSValue → Bool
  | .vstr s => s ≠ ""
  | .vnum n => n ≠ 0
  | .vbool b => b
  | .vnull => false
  | .vundef => false
  | .vobj => true

def JSValue.isString : JSValue → Bool
  | .vstr _ => true
  | _ => false

/-- The string content of a JS value; only meaningful when isString holds
(the handlers short-circuit before touching it otherwise). -/
def JSValue.strVal : JSValue → String
  | .vstr s => s
  | _ => ""

/-- JS truthiness of an optional environment-variable string
(undefined and the empty string are falsy). -/
def envTruthy : Option String → Bool
  | none => false
  | some s => s ≠ ""

/-! ### JS string primitives

The worker leans on a handful of String.prototype methods; they are modelled
structurally over character lists. -/

/-- The whitespace class stripped by String.prototype.trim (ASCII part). -/
def jsWhitespace (c : Char) : Bool :=
  c = ' ' || c = '\t' || c = '\n' || c = '\r' || c = Char.ofNat 11 || c = Char.ofNat 12

/-- JS String.prototype.trim. -/
def jsTrim (s : String) : String :=
  String.mk (((s.data.dropWhile jsWhitespace).reverse.dropWhile jsWhitespace).reverse)

/-- JS String.prototype.toLowerCase (ASCII case fold). -/
def jsToLower (s : String) : String :=
  String.mk (s.data.map Char.toLower)

/-- JS String.prototype.slice(n) for a non-negative start. -/
def jsDrop (s : String) (n : Nat) : String :=
  String.mk (s.data.drop n)

/-- JS String.prototype.split with a single-character separator. -/
def splitOnChar (sep : Char) : List Char → List (List Char)
  | [] => [[]]
  | c :: rest =>
    match splitOnChar sep rest with
    | [] => [[]]
    | g :: gs => if c = sep then [] :: g :: gs else (c :: g) :: gs

/-- JS String.prototype.startsWith, as a character-list prefix test. -/
def jsStartsWith (s pre : String) : Bool :=
  pre.data.isPrefixOf s.data

/-! ## Secret resolution (resolveSecret, part_003 lines 11-24)

resolveSecret(envValue, filePath): a non-blank environment value wins (trimmed);
otherwise a non-blank file path is read and its content trimmed (an unreadable
file throws); otherwise the secret resolves to undefined.  File-system access
is supplied as an oracle: readFile p = none means the read throws. -/

def resolveSecret (envValue filePath : Option String)
    (readFile : String → Option String) : Except String (Option String) :=
  if envTruthy envValue && jsTrim (envValue.getD "") ≠ "" then
    .ok (some (jsTrim (envValue.getD "")))
  else if envTruthy filePath && jsTrim (filePath.getD "") ≠ "" then
    match readFile (jsTrim (filePath.getD "")) with
    | some content => .ok (some (jsTrim content))
    | none => .error "Secret file is not accessible"
  else
    .ok none

/-- The worker's service-token configuration (part_003 lines 38-39):
resolveSecret(process.env.SERVICE_TOKEN ?? 'change_me_worker',
process.env.SERVICE_TOKEN_FILE).  The ?? operator substitutes the default
only when SERVICE_TOKEN is absent, not when it is empty. -/
def serviceTokenOf (envServiceToken envServiceTokenFile : Option String)
    (readFile : String → Option String) : Except String (Option String) :=
  resolveSecret (some (envServiceToken.getD "change_me_worker"))
    envServiceTokenFile readFile

/-! ## Service-token middleware (part_003 lines 342-362)

The middleware is installed with app.use before every route, so it gates every
request, /healthz included.  It reads the configured token header and, when
allowed, falls back to the Authorization header with optional Bearer scheme. -/

structure ReqHeaders where
  tokenHeader : Option String
  authorization : Option String
  deriving Repr, DecidableEq

inductive AuthOutcome where
  | pass
  | unauthorized
  | forbidden
  deriving Repr, DecidableEq

def bearerCandidate (authHeader : String) : String :=
  let v := jsTrim authHeader
  if jsStartsWith (jsToLower v) "bearer " then jsTrim (jsDrop v 7) else v

/-- The credential candidate the middleware compares against the token:
the trimmed configured header, falling back (when enabled and the header was
empty or absent) to the Authorization header with optional Bearer scheme. -/
def authCandidate (allowAuth : Bool) (h : ReqHeaders) : String :=
  let candidate := match h.tokenHeader with
    | some v => jsTrim v
    | none => ""
  if candidate = "" && allowAuth then
    match h.authorization with
    | some a => bearerCandidate a
    | none => ""
  else candidate

def serviceTokenMiddleware (serviceToken : Option String) (allowAuth : Bool)
    (h : ReqHeaders) : AuthOutcome :=
  if !(envTruthy serviceToken) then
    .pass
  else
    let tok := serviceToken.getD ""
    let candidate := authCandidate allowAuth h
    if candidate = "" then .unauthorized
    else if candidate ≠ tok then .forbidden
    else .pass

/-! ## Job-id sanitization and artifact retrieval (part_003 lines 84-86, 415-441) -/

/-- safeJobKey replaces every character outside [a-zA-Z0-9_-] with an
underscore before the id is used as a path segment. -/
def safeChar (c : Char) : Bool :=
  (('a' ≤ c && c ≤ 'z') || ('A' ≤ c && c ≤ 'Z') || ('0' ≤ c && c ≤ '9')
    || c = '_' || c = '-')

def safeJobKey (jobId : String) : String :=
  String.mk (jobId.data.map (fun c => if safeChar c then c else '_'))

/-- The fixed artifact-type table (part_003 lines 415-419). -/
def artifactFileName : String → Option String
  | "html" => some "page.html"
  | "screenshot" => some "screenshot.png"
  | "summary" => some "summary.json"
  | _ => none

def artifactContentType : String → String
  | "html" => "text/html"
  | "screenshot" => "image/png"
  | "summary" => "application/json"
  | _ => "application/octet-stream"

inductive ArtifactResponse where
  | unknownArtifact                          -- 404 unknown artifact
  | invalidPath                              -- 400 invalid path
  | artifactMissing                          -- 404 artifact not found
  | served (filePath : String) (contentType : String)  -- 200, streams filePath
  deriving Repr, DecidableEq

/-- GET /tasks/:id/artifacts/:type.  path.join is modelled as slash
concatenation, which is exact here: safeJobKey output contains no separator
or dot characters and the file names are fixed literals, so no normalization
occurs.  fileExists is the file-system oracle. -/
def artifactHandler (screenshotDir : String) (fileExists : String → Bool)
    (jobId typ : String) : ArtifactResponse :=
  match artifactFileName typ with
  | none => .unknownArtifact
  | some fileName =>
    let safeKey := safeJobKey jobId
    let filePath := screenshotDir ++ "/" ++ safeKey ++ "/" ++ fileName
    if !(jsStartsWith filePath (screenshotDir ++ "/" ++ safeKey)) then
      .invalidPath
    else if !(fileExists filePath) then
      .artifactMissing
    else
      .served filePath (artifactContentType typ)

/-! ## URL construction helpers (part_003 line 143)

encodeURIComponent percent-encodes the UTF-8 bytes of every character outside
the JS unreserved set A-Za-z0-9 - _ . ! ~ * apostrophe ( ). -/

def hexDigit (n : Nat) : Char :=
  if n < 10 then Char.ofNat (48 + n) else Char.ofNat (65 + n - 10)

def byteHex (n : Nat) : String :=
  String.mk ['%', hexDigit (n / 16), hexDigit (n % 16)]

def uriUnreserved (c : Char) : Bool :=
  (('a' ≤ c && c ≤ 'z') || ('A' ≤ c && c ≤ 'Z') || ('0' ≤ c && c ≤ '9')
    || c = '-' || c = '_' || c = '.' || c = '!' || c = '~' || c = '*'
    || c = Char.ofNat 39 || c = '(' || c = ')')

/-- The UTF-8 bytes of a character, by the standard arithmetic encoding. -/
def utf8Bytes (c : Char) : List Nat :=
  let n := c.toNat
  if n < 128 then [n]
  else if n < 2048 then [192 + n / 64, 128 + n % 64]
  else if n < 65536 then [224 + n / 4096, 128 + (n / 64) % 64, 128 + n % 64]
  else [240 + n / 262144, 128 + (n / 4096) % 64, 128 + (n / 64) % 64, 128 + n % 64]

def encodeURIChar (c : Char) : String :=
  if uriUnreserved c then String.singleton c
  else String.join ((utf8Bytes c).map byteHex)

def encodeURIComponent (s : String) : String :=
  String.join (s.data.map encodeURIChar)

/-- JS String.prototype.replace with a string pattern replaces only the first
occurrence; the worker uses locale.replace(dash, colon). -/
def replaceFirstChar (target repl : Char) : List Char → List Char
  | [] => []
  | c :: rest => if c = target then repl :: rest else c :: replaceFirstChar target repl rest

/-- locale.split(dash)[1] with a falsy fallback of "US". -/
def localeRegion (locale : String) : String :=
  match ((splitOnChar '-' locale.data).map String.mk).drop 1 with
  | [] => "US"
  | g :: _ => if g = "" then "US" else g

def buildSearchUrl (normalizedQuery locale : String) : String :=
  "https://news.google.com/search?q=" ++ encodeURIComponent normalizedQuery ++
    "&hl=" ++ encodeURIComponent locale ++
    "&gl=" ++ encodeURIComponent (localeRegion locale) ++
    "&ceid=" ++ encodeURIComponent (String.mk (replaceFirstChar '-' ':' locale.data))

/-! ## HTML escaping (escapeHtml, part_003 lines 88-95)

The source chains five global replaces; since the ampersand pass runs first
and the entities introduced later are never re-scanned, the chain coincides
with a single per-character substitution. -/

def escapeHtmlChar (c : Char) : String :=
  if c = '&' then "&amp;"
  else if c = '<' then "&lt;"
  else if c = '>' then "&gt;"
  else if c = '"' then "&quot;"
  else if c = Char.ofNat 39 then "&#39;"
  else String.singleton c

def escapeHtml (s : String) : String :=
  String.join (s.data.map escapeHtmlChar)

/-! ## Capture executor (captureSearch, part_003 lines 131-211) -/

structure Article where
  title : String
  url : String
  source : Option String
  deriving Repr, DecidableEq

/-- The job payload stored by the submit handler.  locale and maxArticles are
optional because captureSearch destructures them with defaults; metadata is an
opaque JSON object carried through to the summary. -/
structure JobData where
  query : String
  locale : Option String
  maxArticles : Option Int
  metadata : String
  deriving Repr, DecidableEq

structure Summary where
  id : String
  query : String
  locale : String
  searchUrl : String
  fetchedAtMs : Int
  retentionExpiresAtMs : Int
  metadata : String
  articles : List Article
  artifactHtml : String
  artifactScreenshot : String
  artifactSummary : String
  deriving Repr, DecidableEq

structure CaptureCfg where
  fakeMode : Bool
  screenshotDir : String
  navigationTimeout : Int
  retentionHours : Int
  defaultMaxArticles : Int
  deriving Repr, DecidableEq

/-- Outcomes of the external browser-protocol calls performed by a real-mode
capture, together with the data they return.  A false flag means the awaited
call rejected (navigation timeout, browser crash or disconnect, ...).
waitForSelector needs no flag: its rejection is swallowed by the catch
handler, and waitForTimeout is a plain timer. -/
structure RealOracle where
  setUserAgentOk : Bool
  gotoOk : Bool
  evaluateOk : Bool
  contentOk : Bool
  screenshotOk : Bool
  extracted : List Article
  rawHtml : String
  screenshotBytes : String
  deriving Repr, DecidableEq

inductive FileWrite where
  | htmlFile (content : String)
  | screenshotFile (bytes : String)
  | summaryFile (s : Summary)
  deriving Repr, DecidableEq

inductive CaptureEvent where
  | newPage
  | setUserAgent
  | navigate (url : String)
  | closePage
  | write (w : FileWrite)
  deriving Repr, DecidableEq

/-- The canned fake-mode article (part_003 lines 147-153). -/
def placeholderArticle (normalizedQuery : String) : Article :=
  { title := "Placeholder headline for " ++ normalizedQuery,
    url := "https://example.com/adverse-media-placeholder",
    source := some "example.com" }

/-- The fake-mode page markup (part_003 lines 154-156). -/
def fakeHtml (normalizedQuery : String) : String :=
  "<html><body><main><h1>" ++ escapeHtml normalizedQuery ++
    "</h1><p>Placeholder adverse media result.</p></main></body></html>"

/-- The fake-mode 1x1 PNG, kept as the hex literal the source decodes. -/
def fakePngHex : String :=
  "89504E470D0A1A0A0000000D49484452000000010000000108020000009077253D0000000A49444154789C636000000200010000FFFF030000000049454E44AE426082"

def mkSummary (cfg : CaptureCfg) (jobId key normalizedQuery locale searchUrl : String)
    (metadata : String) (articles : List Article) (nowMs : Int) : Summary :=
  { id := jobId, query := normalizedQuery, locale := locale, searchUrl := searchUrl,
    fetchedAtMs := nowMs,
    retentionExpiresAtMs := nowMs + cfg.retentionHours * 60 * 60 * 1000,
    metadata := metadata, articles := articles,
    artifactHtml := key ++ "/page.html",
    artifactScreenshot := key ++ "/screenshot.png",
    artifactSummary := key ++ "/summary.json" }

/-- One capture execution.  Returns the processor outcome together with the
ordered trace of side effects (page lifecycle and artifact writes).  sanitize
stands for the sanitize-html library call with the worker's allow-list config;
local file writes are modelled as succeeding.  In the real branch the page is
opened and the user agent set before the try block; only failures inside the
try block reach the finally clause that closes the page. -/
def captureSearch (cfg : CaptureCfg) (o : RealOracle) (sanitize : String → String)
    (jobId : String) (data : JobData) (nowMs : Int) :
    Except String Summary × List CaptureEvent :=
  if data.query = "" || jsTrim data.query = "" then
    (.error "A non-empty query is required", [])
  else
    let normalizedQuery := jsTrim data.query
    let locale := data.locale.getD "en-US"
    let maxArticles := data.maxArticles.getD cfg.defaultMaxArticles
    let key := safeJobKey jobId
    let searchUrl := buildSearchUrl normalizedQuery locale
    let summaryOf := fun (articles : List Article) =>
      mkSummary cfg jobId key normalizedQuery locale searchUrl data.metadata articles nowMs
    if cfg.fakeMode then
      let articles := [placeholderArticle normalizedQuery]
      let s := summaryOf articles
      (.ok s,
        [ .write (.htmlFile (sanitize (fakeHtml normalizedQuery))),
          .write (.screenshotFile fakePngHex),
          .write (.summaryFile s) ])
    else
      let evs1 : List CaptureEvent := [.newPage]
      if !o.setUserAgentOk then
        -- setUserAgent is awaited before the try/finally: the page stays open
        (.error "setUserAgent rejected", evs1)
      else
        let evs2 := evs1 ++ [CaptureEvent.setUserAgent]
        if !o.gotoOk then
          (.error "navigation failed", evs2 ++ [CaptureEvent.closePage])
        else
          let evs3 := evs2 ++ [CaptureEvent.navigate searchUrl]
          if !o.evaluateOk then
            (.error "evaluate failed", evs3 ++ [CaptureEvent.closePage])
          else if !o.contentOk then
            (.error "content failed", evs3 ++ [CaptureEvent.closePage])
          else
            let articles := o.extracted.take maxArticles.toNat
            let evs4 := evs3 ++ [CaptureEvent.write (.htmlFile (sanitize o.rawHtml))]
            if !o.screenshotOk then
              (.error "screenshot failed", evs4 ++ [CaptureEvent.closePage])
            else
              let s := summaryOf articles
              (.ok s,
                evs4 ++
                  [ .write (.screenshotFile o.screenshotBytes),
                    .closePage,
                    .write (.summaryFile s) ])

/-! ## In-process queue driver (createMemoryDriver, part_003 lines 220-281) -/

inductive JobState where
  | waiting
  | active
  | completed
  | failed
  deriving Repr, DecidableEq

structure MemJob where
  id : String
  data : JobData
  timestampMs : Int
  returnvalue : Option Summary
  failedReason : Option String
  attemptsMade : Nat
  state : JobState
  deriving Repr, DecidableEq

/-- The driver keeps its jobs map (insertion ordered) plus the ids whose
run() callback has been scheduled with setImmediate and has not started. -/
structure MemQueue where
  jobs : List MemJob
  pendingStarts : List String
  deriving Repr, DecidableEq

def freshMemJob (id : String) (data : JobData) (nowMs : Int) : MemJob :=
  { id := id, data := data, timestampMs := nowMs, returnvalue := none,
    failedReason := none, attemptsMade := 0, state := .waiting }

/-- queue.add: create the job in waiting state, store it, and schedule a
single run() for it at the next event-loop tick — unconditionally, with no
look at how many jobs are already active and no concurrency parameter. -/
def memQueueAdd (st : MemQueue) (id : String) (data : JobData) (nowMs : Int) :
    MemQueue × MemJob :=
  let job := freshMemJob id data nowMs
  ({ jobs := st.jobs ++ [job], pendingStarts := st.pendingStarts ++ [id] }, job)

/-- run(job), executed to completion: one attempt — mark active, bump
attemptsMade, invoke the processor, finalize completed or failed.  There is
no retry, no backoff and no consultation of any attempt limit. -/
def memRun (processor : JobData → Except String Summary) (job : MemJob) : MemJob :=
  let j := { job with state := JobState.active, attemptsMade := job.attemptsMade + 1 }
  match processor j.data with
  | .ok v => { j with state := JobState.completed, returnvalue := some v }
  | .error e => { j with state := JobState.failed, failedReason := some e }

/-- The event-loop tick that consumes the setImmediate queue.  Each scheduled
run() marks its job active (and bumps attemptsMade) synchronously before its
first await, so when the processors suspend on browser work, every scheduled
job is active at once. -/
def startPending (st : MemQueue) : MemQueue :=
  { jobs := st.jobs.map (fun j =>
      if st.pendingStarts.contains j.id then
        { j with state := JobState.active, attemptsMade := j.attemptsMade + 1 }
      else j),
    pendingStarts := [] }

def activeCount (st : MemQueue) : Nat :=
  (st.jobs.filter (fun j => j.state = JobState.active)).length

def memGetJob (st : MemQueue) (id : String) : Option MemJob :=
  st.jobs.find? (fun j => j.id = id)

/-- Enqueue a batch from the empty driver state (ids paired with payloads). -/
def memAddAll (adds : List (String × JobData)) (nowMs : Int) : MemQueue :=
  adds.foldl (fun st a => (memQueueAdd st a.1 a.2 nowMs).1)
    { jobs := [], pendingStarts := [] }

/-! ## Durable backend configuration (part_003 lines 295-307)

The BullMQ Queue and Worker are constructed with these options; the retry and
dispatch machinery itself lives in the external BullMQ library. -/

structure BullBackoff where
  backoffType : String
  delayMs : Int
  deriving Repr, DecidableEq

structure BullQueueOptions where
  attempts : Nat
  backoff : BullBackoff
  deriving Repr, DecidableEq

def bullQueueOptions (maxAttempts : Nat) : BullQueueOptions :=
  { attempts := maxAttempts, backoff := { backoffType := "exponential", delayMs := 3000 } }

structure BullWorkerOptions where
  concurrency : Nat
  deriving Repr, DecidableEq

def bullWorkerOptions (concurrency : Nat) : BullWorkerOptions :=
  { concurrency := concurrency }

inductive RetryDecision where
  | reschedule (delayMs : Int)
  | finalizeFailed
  deriving Repr, DecidableEq

/-- Modelled from the spec: the BullMQ library (an external dependency, not in
the repository) applies the configured retry policy — after an errored
attempt, if attemptsMade < attempts the job is rescheduled after an
exponential backoff delay of delay times 2^(attempt-1); otherwise it is
finalized Failed. -/
def bullRetryDecision (opts : BullQueueOptions) (attemptsMade : Nat) : RetryDecision :=
  if attemptsMade < opts.attempts then
    .reschedule (opts.backoff.delayMs * 2 ^ (attemptsMade - 1))
  else
    .finalizeFailed

/-! ## Submit handler (POST /tasks, part_003 lines 377-392) -/

structure SubmitBody where
  query : JSValue
  locale : Option String
  maxArticles : Option Int
  metadata : Option String
  deriving Repr, DecidableEq

/-- The guard !query || typeof query !== 'string' || !query.trim(). -/
def queryInvalid (q : JSValue) : Bool :=
  !q.truthy || !q.isString || jsTrim q.strVal = ""

inductive SubmitResult where
  | badRequest                       -- 400 query is required
  | accepted (id : String)           -- 202 with state "queued"
  deriving Repr, DecidableEq

/-- maxArticles clamp: typeof number gives Math.max(1, Math.min(v, 20)),
anything else gives the configured default. -/
def clampMaxArticles (defaultMaxArticles : Int) : Option Int → Int
  | some n => max 1 (min n 20)
  | none => defaultMaxArticles

/-- The payload stored on the queue for a valid submission: the raw query,
locale || 'en-US', the clamped maxArticles and metadata || an empty object. -/
def submittedData (defaultMaxArticles : Int) (body : SubmitBody) : JobData :=
  { query := body.query.strVal,
    locale := some (match body.locale with
      | some l => if l ≠ "" then l else "en-US"
      | none => "en-US"),
    maxArticles := some (clampMaxArticles defaultMaxArticles body.maxArticles),
    metadata := body.metadata.getD "\x7b\x7d" }

def postTasks (defaultMaxArticles : Int) (st : MemQueue) (freshId : String)
    (body : SubmitBody) (nowMs : Int) : SubmitResult × MemQueue :=
  if queryInvalid body.query then
    (.badRequest, st)
  else
    let r := memQueueAdd st freshId (submittedData defaultMaxArticles body) nowMs
    (.accepted r.2.id, r.1)

/-! ## Health, status and full request handling (part_003 lines 329-447) -/

inductive Route where
  | healthz
  | postTasksRoute (body : SubmitBody)
  | getTask (id : String)
  | getArtifact (id : String) (typ : String)
  | metrics
  deriving Repr, DecidableEq

inductive AppResponse where
  | unauthorized                             -- 401 missing service token
  | forbidden                                -- 403 invalid service token
  | healthOk                                 -- 200
  | healthInitialising                       -- 503
  | healthError                              -- 503
  | badRequest                               -- 400 query is required
  | accepted (id : String)                   -- 202
  | jobNotFound                              -- 404
  | jobSnapshot (j : MemJob)                 -- 200
  | artifact (r : ArtifactResponse)
  | metricsPayload                           -- 200
  deriving Repr, DecidableEq

def AppResponse.statusCode : AppResponse → Nat
  | .unauthorized => 401
  | .forbidden => 403
  | .healthOk => 200
  | .healthInitialising => 503
  | .healthError => 503
  | .badRequest => 400
  | .accepted _ => 202
  | .jobNotFound => 404
  | .jobSnapshot _ => 200
  | .artifact .unknownArtifact => 404
  | .artifact .invalidPath => 400
  | .artifact .artifactMissing => 404
  | .artifact (.served _ _) => 200
  | .metricsPayload => 200

structure AppCfg where
  serviceToken : Option String
  allowAuthorizationHeader : Bool
  screenshotDir : String
  defaultMaxArticles : Int
  deriving Repr, DecidableEq

/-- The route handlers behind the middleware, over the in-process driver
state.  ready/pingOk model the readiness flag and the queue liveness probe;
fileExists is the artifact-store oracle. -/
def dispatchRoute (cfg : AppCfg) (ready pingOk : Bool) (fileExists : String → Bool)
    (st : MemQueue) (freshId : String) (nowMs : Int) :
    Route → AppResponse × MemQueue
  | .healthz =>
    if !ready then (.healthInitialising, st)
    else if pingOk then (.healthOk, st) else (.healthError, st)
  | .postTasksRoute body =>
    match postTasks cfg.defaultMaxArticles st freshId body nowMs with
    | (.badRequest, st2) => (.badRequest, st2)
    | (.accepted id, st2) => (.accepted id, st2)
  | .getTask id =>
    match memGetJob st id with
    | none => (.jobNotFound, st)
    | some j => (.jobSnapshot j, st)
  | .getArtifact id typ =>
    (.artifact (artifactHandler cfg.screenshotDir fileExists id typ), st)
  | .metrics => (.metricsPayload, st)

/-- One HTTP request through the Express app: the service-token middleware is
installed with app.use ahead of every route (part_003 line 342), so it runs
first on every path — /healthz included — and only a passing request reaches
its route handler. -/
def handleRequest (cfg : AppCfg) (ready pingOk : Bool) (fileExists : String → Bool)
    (st : MemQueue) (freshId : String) (nowMs : Int) (h : ReqHeaders)
    (route : Route) : AppResponse × MemQueue :=
  match serviceTokenMiddleware cfg.serviceToken cfg.allowAuthorizationHeader h with
  | .unauthorized => (.unauthorized, st)
  | .forbidden => (.forbidden, st)
  | .pass => dispatchRoute cfg ready pingOk fileExists st freshId nowMs route

/-! ## Retention cleanup (src/docker/puppeteer/cleanup.js)

The artifact tree is modelled as a mutual inductive (directory entries carry
their names); prune mirrors the recursive sweep: an entry older than the
cutoff is removed (a directory wholesale, with its contents); a fresh
directory is pruned recursively and then removed if left empty. -/

mutual
inductive FsTree where
  | file (mtimeMs : Int)
  | dir (mtimeMs : Int) (children : FsEntries)
  deriving Repr, DecidableEq
inductive FsEntries where
  | nil
  | cons (name : String) (tree : FsTree) (rest : FsEntries)
  deriving Repr, DecidableEq
end

mutual
def pruneTree (cutoff : Int) : FsTree → Option FsTree
  | .file m => if m < cutoff then none else some (.file m)
  | .dir m cs =>
    if m < cutoff then none
    else
      let cs2 := pruneEntries cutoff cs
      match cs2 with
      | .nil => none
      | _ => some (.dir m cs2)
def pruneEntries (cutoff : Int) : FsEntries → FsEntries
  | .nil => .nil
  | .cons n t rest =>
    match pruneTree cutoff t with
    | none => pruneEntries cutoff rest
    | some t2 => .cons n t2 (pruneEntries cutoff rest)
end

mutual
/-- The files of a tree, as (path, mtime) pairs in traversal order. -/
def filesTree (path : List String) : FsTree → List (List String × Int)
  | .file m => [(path, m)]
  | .dir _ cs => filesEntries path cs
def filesEntries (path : List String) : FsEntries → List (List String × Int)
  | .nil => []
  | .cons n t rest => filesTree (path ++ [n]) t ++ filesEntries path rest
end

/-- prune(rootDir): the sweep runs over the root's entries; the root itself
is never removed. -/
def pruneRoot (cutoff : Int) (root : FsEntries) : FsEntries :=
  pruneEntries cutoff root

/-! ## Derived observations and example data used by the theorems -/

/-- parseInt(process.env.SCRAPE_MAX_ATTEMPTS || '3') with the variable unset. -/
def defaultMaxAttempts : Nat := 3

/-- parseInt(process.env.SCRAPE_CONCURRENCY || '2') with the variable unset. -/
def defaultConcurrency : Nat := 2

def fileWriteName : FileWrite → String
  | .htmlFile _ => "page.html"
  | .screenshotFile _ => "screenshot.png"
  | .summaryFile _ => "summary.json"

/-- The artifact files written during a capture, in write order. -/
def writeNames (evs : List CaptureEvent) : List String :=
  evs.filterMap (fun e => match e with
    | .write w => some (fileWriteName w)
    | _ => none)

/-- True for artifact-store writes, false for browser interactions. -/
def isFileWriteEvent : CaptureEvent → Bool
  | .write _ => true
  | _ => false

/-- The input-determined part of a summary: query, locale, search URL and the
article list (ids and timestamps vary between runs). -/
def summaryShape (s : Summary) : String × String × String × List Article :=
  (s.query, s.locale, s.searchUrl, s.articles)

/-- A directory content consisting of plain files (name, mtime). -/
def flatFiles : List (String × Int) → FsEntries
  | [] => .nil
  | f :: rest => .cons f.1 (.file f.2) (flatFiles rest)

/-- The artifact-store layout: the root holds one directory per job, each
holding plain files. -/
def jobDirLayout : List (String × Int × List (String × Int)) → FsEntries
  | [] => .nil
  | d :: rest => .cons d.1 (.dir d.2.1 (flatFiles d.2.2)) (jobDirLayout rest)

/-- The expected sweep result on that layout: a stale directory disappears
with all its contents; a fresh directory keeps exactly its fresh files and is
dropped when left empty. -/
def jobDirLayoutPruned (cutoff : Int) (root : List (String × Int × List (String × Int))) :
    List (String × Int × List (String × Int)) :=
  root.filterMap (fun d =>
    if d.2.1 < cutoff then none
    else
      let fs := d.2.2.filter (fun f => !(f.2 < cutoff))
      if fs.isEmpty then none else some (d.1, d.2.1, fs))

def demoJobData : JobData :=
  { query := "Acme Corp", locale := none, maxArticles := none, metadata := "\x7b\x7d" }

def demoCaptureCfg : CaptureCfg :=
  { fakeMode := true, screenshotDir := "/tmp/webshot", navigationTimeout := 20000,
    retentionHours := 24, defaultMaxArticles := 5 }

def demoRealCfg : CaptureCfg :=
  { demoCaptureCfg with fakeMode := false }

def demoOracle : RealOracle :=
  { setUserAgentOk := true, gotoOk := true, evaluateOk := true, contentOk := true,
    screenshotOk := true, extracted := [], rawHtml := "<html></html>",
    screenshotBytes := "PNG" }

def demoAppCfg : AppCfg :=
  { serviceToken := some "change_me_worker", allowAuthorizationHeader := true,
    screenshotDir := "/tmp/webshot", defaultMaxArticles := 5 }

def emptyQueue : MemQueue := { jobs := [], pendingStarts := [] }

def demoOpenCfg : AppCfg := { demoAppCfg with serviceToken := none }

def demoHeadersNone : ReqHeaders := { tokenHeader := none, authorization := none }

def demoHeadersWrong : ReqHeaders := { tokenHeader := some "wrong-token", authorization := none }

def demoLeakOracle : RealOracle := { demoOracle with setUserAgentOk := false }

def threeAdds : List (String × JobData) :=
  [("job-a", demoJobData), ("job-b", demoJobData), ("job-c", demoJobData)]

def demoSubmitBody : SubmitBody :=
  { query := .vstr "Acme Corp", locale := none, maxArticles := some 50, metadata := none }

end AdverseMedia

namespace AdverseMedia

/-! # Theorems -/

/-- Claim C10: when SERVICE_TOKEN is set to an empty or whitespace-only
string while no SERVICE_TOKEN_FILE is configured, the shared secret resolves
to undefined, and the service-token middleware then passes every request
through unchecked: every route (submit, status, artifact fetch, metrics, and
health) is served with no credential required at all. -/
theorem emptyServiceTokenDisablesAuth
    (s : String) (hs : jsTrim s = "")
    (readFile : String → Option String)
    (cfg : AppCfg) (hcfg : cfg.serviceToken = none)
    (ready pingOk : Bool) (fileExists : String → Bool) (st : MemQueue)
    (freshId : String) (nowMs : Int) (h : ReqHeaders) (route : Route) :
    serviceTokenOf (some s) none readFile = .ok none ∧
    serviceTokenMiddleware cfg.serviceToken cfg.allowAuthorizationHeader h = .pass ∧
    handleRequest cfg ready pingOk fileExists st freshId nowMs h route =
      dispatchRoute cfg ready pingOk fileExists st freshId nowMs route := by
  refine ⟨?_, ?_, ?_⟩
  · simp [serviceTokenOf, resolveSecret, envTruthy, hs]
  · simp [serviceTokenMiddleware, envTruthy, hcfg]
  · simp [handleRequest, serviceTokenMiddleware, envTruthy, hcfg]

/-- Witness for C10 at SERVICE_TOKEN three spaces, no file: the health route
(and every other route) is served without any credential check. -/
theorem emptyServiceTokenDisablesAuth_witness :
    serviceTokenOf (some "   ") none (fun _ => none) = .ok none ∧
    serviceTokenMiddleware demoOpenCfg.serviceToken demoOpenCfg.allowAuthorizationHeader
      demoHeadersNone = .pass ∧
    handleRequest demoOpenCfg true true (fun _ => false) emptyQueue "id-1" 0
      demoHeadersNone .healthz =
      dispatchRoute demoOpenCfg true true (fun _ => false) emptyQueue "id-1" 0 .healthz :=
  emptyServiceTokenDisablesAuth "   " rfl (fun _ => none) demoOpenCfg rfl
    true true (fun _ => false) emptyQueue "id-1" 0 demoHeadersNone .healthz

/-- Claim C2 counterexample: under the default configuration the shared
secret resolves to change_me_worker, and a /healthz request carrying no
credential is rejected 401 — the service-token middleware is installed ahead
of every route, health included, so health is not served without a
credential. -/
theorem healthzRequiresToken_cex :
    serviceTokenOf none none (fun _ => none) = .ok (some "change_me_worker") ∧
    handleRequest demoAppCfg true true (fun _ => false) emptyQueue "id-1" 0
      demoHeadersNone .healthz = (.unauthorized, emptyQueue) ∧
    AppResponse.unauthorized.statusCode = 401 ∧
    AppResponse.unauthorized ≠ .healthOk := by
  refine ⟨rfl, by decide, rfl, by decide⟩

/-- Claim C2 amended: whenever the shared secret resolves to a non-empty
value, every route — health included — requires the credential: a request
whose credential candidate is empty (no configured header, no accepted
Authorization fallback) is rejected 401; a present-but-incorrect credential
is rejected 403; the correct credential reaches the route handler. -/
theorem authGate_amended
    (cfg : AppCfg) (ready pingOk : Bool) (fileExists : String → Bool)
    (st : MemQueue) (freshId : String) (nowMs : Int) (h : ReqHeaders) (route : Route)
    (htok : envTruthy cfg.serviceToken = true) :
    (authCandidate cfg.allowAuthorizationHeader h = "" →
      handleRequest cfg ready pingOk fileExists st freshId nowMs h route =
        (.unauthorized, st)) ∧
    (authCandidate cfg.allowAuthorizationHeader h ≠ "" →
      authCandidate cfg.allowAuthorizationHeader h ≠ cfg.serviceToken.getD "" →
      handleRequest cfg ready pingOk fileExists st freshId nowMs h route =
        (.forbidden, st)) ∧
    (authCandidate cfg.allowAuthorizationHeader h ≠ "" →
      authCandidate cfg.allowAuthorizationHeader h = cfg.serviceToken.getD "" →
      handleRequest cfg ready pingOk fileExists st freshId nowMs h route =
        dispatchRoute cfg ready pingOk fileExists st freshId nowMs route) := by
  refine ⟨?_, ?_, ?_⟩ <;> intro h1 <;>
    simp [handleRequest, serviceTokenMiddleware, htok, h1]
  · intro h2
    simp [h2]
  · intro h2
    simp [h2]

/-- Witness for the C2 amendment: with the default secret, a /healthz request
with a wrong token is rejected 403. -/
theorem authGate_amended_witness :
    envTruthy demoAppCfg.serviceToken = true ∧
    handleRequest demoAppCfg true true (fun _ => false) emptyQueue "id-1" 0
      demoHeadersWrong .healthz = (.forbidden, emptyQueue) :=
  ⟨rfl,
    (authGate_amended demoAppCfg true true (fun _ => false) emptyQueue "id-1" 0
        demoHeadersWrong .healthz rfl).2.1 (by decide) (by decide)⟩

/-- Claim C1 counterexample: in the in-process memory backend a job whose
only execution attempt errors is finalized failed immediately with
attemptsMade = 1, although 1 is below the default maxAttempts of 3 — the job
is never rescheduled and reaches the terminal failed state with
attemptsMade below maxAttempts. -/
theorem memoryRetry_cex :
    (memRun (fun _ => .error "navigation timeout")
        (freshMemJob "job-1" demoJobData 0)).state = JobState.failed ∧
    (memRun (fun _ => .error "navigation timeout")
        (freshMemJob "job-1" demoJobData 0)).attemptsMade = 1 ∧
    (memRun (fun _ => .error "navigation timeout")
        (freshMemJob "job-1" demoJobData 0)).failedReason = some "navigation timeout" ∧
    1 < defaultMaxAttempts := by
  refine ⟨rfl, rfl, rfl, by decide⟩

/-- Claim C1 amended: only the durable BullMQ backend is configured with the
retry policy (attempts = maxAttempts, exponential backoff with base delay
3000 ms, applied by the external BullMQ library); the in-process memory
backend executes each job exactly once — the single run marks the job
active, increments attemptsMade, and finalizes completed on success or
failed on error, retaining the failure reason, regardless of maxAttempts. -/
theorem retryPolicy_amended :
    (∀ (p : JobData → Except String Summary) (j : MemJob) (e : String),
      p j.data = .error e →
      memRun p j = { j with state := JobState.failed,
                            attemptsMade := j.attemptsMade + 1,
                            failedReason := some e }) ∧
    (∀ (p : JobData → Except String Summary) (j : MemJob) (v : Summary),
      p j.data = .ok v →
      memRun p j = { j with state := JobState.completed,
                            attemptsMade := j.attemptsMade + 1,
                            returnvalue := some v }) ∧
    (∀ m : Nat, bullQueueOptions m =
      { attempts := m, backoff := { backoffType := "exponential", delayMs := 3000 } }) ∧
    (∀ m a : Nat, a < m →
      bullRetryDecision (bullQueueOptions m) a = .reschedule (3000 * 2 ^ (a - 1))) ∧
    (∀ m : Nat, bullRetryDecision (bullQueueOptions m) m = .finalizeFailed) := by
  refine ⟨?_, ?_, fun m => rfl, ?_, ?_⟩
  · intro p j e h
    simp [memRun, h]
  · intro p j v h
    simp [memRun, h]
  · intro m a h
    simp [bullRetryDecision, bullQueueOptions, h]
  · intro m
    simp [bullRetryDecision, bullQueueOptions]

/-- Witness for the C1 amendment: a failing run in the memory backend
finalizes failed after its single attempt; the modelled durable policy
reschedules attempt 1 of 3 after the base delay and finalizes at attempt 3. -/
theorem retryPolicy_amended_witness :
    memRun (fun _ => .error "boom") (freshMemJob "job-2" demoJobData 0) =
      { freshMemJob "job-2" demoJobData 0 with
          state := JobState.failed, attemptsMade := 1, failedReason := some "boom" } ∧
    bullRetryDecision (bullQueueOptions 3) 1 = .reschedule 3000 ∧
    bullRetryDecision (bullQueueOptions 3) 3 = .finalizeFailed := by
  refine ⟨retryPolicy_amended.1 (fun _ => .error "boom") _ "boom" rfl, ?_,
    retryPolicy_amended.2.2.2.2 3⟩
  have h := retryPolicy_amended.2.2.2.1 3 1 (by decide)
  simpa using h


/-- Auxiliary: memQueueAdd folded over a batch, from any starting state. -/
theorem memAddAll_foldl (now : Int) (l : List (String × JobData)) :
    ∀ st : MemQueue,
      l.foldl (fun st a => (memQueueAdd st a.1 a.2 now).1) st =
        { jobs := st.jobs ++ l.map (fun a => freshMemJob a.1 a.2 now),
          pendingStarts := st.pendingStarts ++ l.map Prod.fst } := by
  induction l with
  | nil => intro st; simp
  | cons a l ih =>
    intro st
    rw [List.foldl_cons, ih]
    simp [memQueueAdd, List.append_assoc]

/-- Auxiliary: the state built by a batch of adds from the empty driver. -/
theorem memAddAll_spec (adds : List (String × JobData)) (now : Int) :
    memAddAll adds now =
      { jobs := adds.map (fun a => freshMemJob a.1 a.2 now),
        pendingStarts := adds.map Prod.fst } := by
  simpa [memAddAll] using memAddAll_foldl now adds { jobs := [], pendingStarts := [] }

/-- Auxiliary: marking every scheduled job active makes the whole list
active. -/
theorem activeCount_mark (P : List String) :
    ∀ L : List MemJob, (∀ j ∈ L, P.contains j.id = true) →
      ((L.map (fun j => if P.contains j.id then
          { j with state := JobState.active, attemptsMade := j.attemptsMade + 1 }
        else j)).filter (fun j => j.state = JobState.active)).length = L.length := by
  intro L
  induction L with
  | nil => simp
  | cons j L ih =>
    intro hc
    have hj := hc j (List.mem_cons_self j L)
    have hrest := ih (fun x hx => hc x (List.mem_cons_of_mem j hx))
    simp only [List.map_cons, List.filter_cons, hj, if_true, decide_True,
      List.length_cons, hrest]

/-- Claim C3 counterexample: enqueue three jobs in the in-process backend and
let the scheduled setImmediate callbacks run — all three are active at the
same instant, exceeding the default configured concurrency of 2 (and a
configured concurrency of 1): the memory driver starts every job
immediately. -/
theorem memoryConcurrency_cex :
    activeCount (startPending (memAddAll threeAdds 0)) = 3 ∧
    defaultConcurrency < 3 ∧
    ¬(activeCount (startPending (memAddAll threeAdds 0)) ≤ 1) := by
  refine ⟨by decide, by decide, by decide⟩

/-- Claim C3 amended: the in-process backend has no concurrency gate — its
add operation unconditionally schedules a run for every job, so after the
scheduled starts fire, the number of simultaneously active captures equals
the total number of enqueued jobs, whatever concurrency was configured (the
concurrency setting is passed only to the durable BullMQ worker). -/
theorem memoryDispatch_amended (adds : List (String × JobData)) (now : Int) :
    activeCount (startPending (memAddAll adds now)) = adds.length := by
  rw [memAddAll_spec]
  unfold startPending activeCount
  have hmem : ∀ j ∈ adds.map (fun a => freshMemJob a.1 a.2 now),
      (adds.map Prod.fst).contains j.id = true := by
    intro j hj
    rcases List.mem_map.mp hj with ⟨a, ha, rfl⟩
    simp [freshMemJob]
    exact ⟨a.2, by simpa using ha⟩
  have h := activeCount_mark (adds.map Prod.fst)
    (adds.map (fun a => freshMemJob a.1 a.2 now)) hmem
  simpa using h


/-- Claim C4 counterexample: in real mode, when the awaited
page.setUserAgent call rejects (for example because the browser crashed or
disconnected right after the page was opened), captureSearch propagates the
error while the page it opened is never closed — the setUserAgent call sits
before the try/finally that guards the page, so this exit path skips the
close. -/
theorem pageRelease_cex :
    (captureSearch demoRealCfg demoLeakOracle (fun s => s) "job-1" demoJobData 0).1 =
      .error "setUserAgent rejected" ∧
    CaptureEvent.newPage ∈
      (captureSearch demoRealCfg demoLeakOracle (fun s => s) "job-1" demoJobData 0).2 ∧
    CaptureEvent.closePage ∉
      (captureSearch demoRealCfg demoLeakOracle (fun s => s) "job-1" demoJobData 0).2 := by
  refine ⟨rfl, by decide, by decide⟩

/-- Claim C4 amended: in real mode the page is closed on every exit path of
the guarded capture body — whether navigation, extraction, sanitization or
screenshotting succeeds or throws — except the one exit path that precedes
the try/finally: a rejection of the user-agent setup, which propagates with
the page left open.  Formally: whenever setUserAgent succeeds, any run that
opened a page also closes it. -/
theorem pageRelease_amended (cfg : CaptureCfg) (o : RealOracle)
    (sanitize : String → String) (jobId : String) (data : JobData) (nowMs : Int)
    (hm : cfg.fakeMode = false) (hua : o.setUserAgentOk = true) :
    CaptureEvent.newPage ∈ (captureSearch cfg o sanitize jobId data nowMs).2 →
      CaptureEvent.closePage ∈ (captureSearch cfg o sanitize jobId data nowMs).2 := by
  unfold captureSearch
  simp only [hm, hua, Bool.not_true, Bool.false_eq_true, if_false]
  repeat' split
  all_goals simp

/-- Witness for the C4 amendment: a real-mode run whose navigation fails
still closes its page. -/
theorem pageRelease_amended_witness :
    CaptureEvent.closePage ∈
      (captureSearch demoRealCfg { demoOracle with gotoOk := false }
        (fun s => s) "job-1" demoJobData 0).2 :=
  pageRelease_amended demoRealCfg { demoOracle with gotoOk := false }
    (fun s => s) "job-1" demoJobData 0 rfl rfl (by decide)


/-- Auxiliary: a concatenation starts with its left part. -/
theorem jsStartsWith_append (x y : String) : jsStartsWith (x ++ y) x = true := by
  simp [jsStartsWith, String.data_append]

/-- Auxiliary: every character of a sanitized job key is in [a-zA-Z0-9_-];
in particular the key contains no path separator and no dot. -/
theorem safeJobKey_chars (jobId : String) :
    ∀ c ∈ (safeJobKey jobId).data, safeChar c = true := by
  intro c hc
  rcases List.mem_map.mp hc with ⟨a, _, rfl⟩
  by_cases h : safeChar a = true <;> simp [h]
  · decide

/-- Claim C5 counterexample: a crafted job id attempting traversal is not
rejected with 400 — the id is first sanitized to underscores, the resolved
path stays inside the artifact root, the 400 path-check never fires, and the
request ends in 404 (artifact not found) or, if such a file exists, serves a
file inside the root — never /etc/passwd. -/
theorem artifactTraversal_cex :
    safeJobKey "../../etc/passwd" = "______etc_passwd" ∧
    artifactHandler "/tmp/webshot" (fun _ => false) "../../etc/passwd" "html" =
      .artifactMissing ∧
    (AppResponse.artifact ArtifactResponse.artifactMissing).statusCode = 404 ∧
    ArtifactResponse.artifactMissing ≠ ArtifactResponse.invalidPath ∧
    artifactHandler "/tmp/webshot" (fun _ => true) "../../etc/passwd" "html" =
      .served "/tmp/webshot/______etc_passwd/page.html" "text/html" := by
  refine ⟨rfl, by decide, rfl, by decide, by decide⟩

/-- Claim C5 amended: the artifact handler never answers 400 — the sanitized
key makes its traversal check unreachable; an unknown artifact type answers
404, an absent file answers 404, and any file it serves is exactly
root/safeJobKey(id)/fileName where the key consists solely of characters in
[a-zA-Z0-9_-], so the handler never reads outside the job's own directory
under the artifact root. -/
theorem artifactRetrieval_amended (dir : String) (fileExists : String → Bool)
    (jobId typ : String) :
    (artifactHandler dir fileExists jobId typ ≠ .invalidPath) ∧
    (artifactFileName typ = none →
      artifactHandler dir fileExists jobId typ = .unknownArtifact) ∧
    (∀ fn, artifactFileName typ = some fn →
      fileExists (dir ++ "/" ++ safeJobKey jobId ++ "/" ++ fn) = false →
      artifactHandler dir fileExists jobId typ = .artifactMissing) ∧
    (∀ p ct, artifactHandler dir fileExists jobId typ = .served p ct →
      ∃ fn, artifactFileName typ = some fn ∧
        p = dir ++ "/" ++ safeJobKey jobId ++ "/" ++ fn ∧
        ct = artifactContentType typ) ∧
    (∀ c ∈ (safeJobKey jobId).data, safeChar c = true) := by
  have hsw : ∀ fn : String,
      jsStartsWith (dir ++ "/" ++ safeJobKey jobId ++ "/" ++ fn)
        (dir ++ "/" ++ safeJobKey jobId) = true := by
    intro fn
    have := jsStartsWith_append (dir ++ "/" ++ safeJobKey jobId) ("/" ++ fn)
    simpa [String.append_assoc] using this
  refine ⟨?_, ?_, ?_, ?_, safeJobKey_chars jobId⟩
  · unfold artifactHandler
    cases hfn : artifactFileName typ with
    | none => simp
    | some fn => simp [hsw fn]; split <;> simp
  · intro h
    simp [artifactHandler, h]
  · intro fn hfn hex
    simp [artifactHandler, hfn, hsw fn, hex]
  · intro p ct h
    unfold artifactHandler at h
    cases hfn : artifactFileName typ with
    | none => rw [hfn] at h; simp at h
    | some fn =>
      rw [hfn] at h
      by_cases hex : fileExists (dir ++ "/" ++ safeJobKey jobId ++ "/" ++ fn) = true
      · simp [hsw fn, hex] at h
        exact ⟨fn, rfl, h.1.symm, h.2.symm⟩
      · have hex2 : fileExists (dir ++ "/" ++ safeJobKey jobId ++ "/" ++ fn) = false := by
          simpa using hex
        simp [hsw fn, hex2] at h

/-- Witness for the C5 amendment: a request for the html artifact of a job
with a traversal-crafted id, with no file present, answers 404. -/
theorem artifactRetrieval_amended_witness :
    artifactFileName "html" = some "page.html" ∧
    (fun _ => false : String → Bool)
        ("/tmp/webshot" ++ "/" ++ safeJobKey "../x" ++ "/" ++ "page.html") = false ∧
    artifactHandler "/tmp/webshot" (fun _ => false) "../x" "html" = .artifactMissing :=
  ⟨rfl, rfl,
    (artifactRetrieval_amended "/tmp/webshot" (fun _ => false) "../x" "html").2.2.1
      "page.html" rfl rfl⟩


/-- Claim C6: in every capture — fake mode and real mode, on every outcome —
the sequence of artifact writes is a front portion of
[page.html, screenshot.png, summary.json]: the html file first, the
screenshot second, the summary last; a capture that returns a summary has
written all three in that strict order, and whenever the summary file was
written, both the html and the screenshot files were already written before
it. -/
theorem artifactWriteOrder (cfg : CaptureCfg) (o : RealOracle)
    (sanitize : String → String) (jobId : String) (data : JobData) (nowMs : Int) :
    (writeNames (captureSearch cfg o sanitize jobId data nowMs).2 = [] ∨
     writeNames (captureSearch cfg o sanitize jobId data nowMs).2 = ["page.html"] ∨
     writeNames (captureSearch cfg o sanitize jobId data nowMs).2 =
       ["page.html", "screenshot.png"] ∨
     writeNames (captureSearch cfg o sanitize jobId data nowMs).2 =
       ["page.html", "screenshot.png", "summary.json"]) ∧
    (∀ s, (captureSearch cfg o sanitize jobId data nowMs).1 = .ok s →
      writeNames (captureSearch cfg o sanitize jobId data nowMs).2 =
        ["page.html", "screenshot.png", "summary.json"]) ∧
    ("summary.json" ∈ writeNames (captureSearch cfg o sanitize jobId data nowMs).2 →
      writeNames (captureSearch cfg o sanitize jobId data nowMs).2 =
        ["page.html", "screenshot.png", "summary.json"]) := by
  unfold captureSearch
  repeat' split
  all_goals simp [writeNames, fileWriteName]

/-- Witness for C6: a successful fake-mode capture writes exactly
page.html, then screenshot.png, then summary.json. -/
theorem artifactWriteOrder_witness :
    "summary.json" ∈
      writeNames (captureSearch demoCaptureCfg demoOracle (fun s => s)
        "job-1" demoJobData 0).2 ∧
    writeNames (captureSearch demoCaptureCfg demoOracle (fun s => s)
        "job-1" demoJobData 0).2 = ["page.html", "screenshot.png", "summary.json"] :=
  ⟨by decide,
    (artifactWriteOrder demoCaptureCfg demoOracle (fun s => s) "job-1" demoJobData 0).2.2
      (by decide)⟩


/-- Claim C8: a submit whose query is missing, not a string, or
whitespace-only is answered 400 with the queue untouched — nothing is
enqueued; any other submit appends exactly one job in waiting state with
zero attempts, schedules its start for a later tick, and answers 202 with
the job id and state queued immediately — the response does not depend on
the capture having run (the new job is still waiting when the response is
produced). -/
theorem submitValidation (dflt : Int) (st : MemQueue) (freshId : String)
    (body : SubmitBody) (nowMs : Int) :
    (queryInvalid body.query = true →
      postTasks dflt st freshId body nowMs = (.badRequest, st)) ∧
    (queryInvalid body.query = false →
      postTasks dflt st freshId body nowMs =
        (.accepted freshId,
         { jobs := st.jobs ++ [freshMemJob freshId (submittedData dflt body) nowMs],
           pendingStarts := st.pendingStarts ++ [freshId] })) ∧
    ((freshMemJob freshId (submittedData dflt body) nowMs).state = JobState.waiting) ∧
    ((freshMemJob freshId (submittedData dflt body) nowMs).attemptsMade = 0) ∧
    (queryInvalid JSValue.vundef = true) ∧
    (queryInvalid (JSValue.vstr "") = true) ∧
    (queryInvalid (JSValue.vstr "   ") = true) ∧
    (∀ n : Int, queryInvalid (JSValue.vnum n) = true) ∧
    ((submittedData dflt body).query = body.query.strVal) := by
  refine ⟨?_, ?_, rfl, rfl, by decide, by decide, by decide, ?_, rfl⟩
  · intro h
    simp [postTasks, h]
  · intro h
    simp [postTasks, h, memQueueAdd, freshMemJob]
  · intro n
    simp [queryInvalid, JSValue.isString]

/-- Witness for C8: a valid submit enqueues one waiting job and answers 202;
the blank and whitespace-only queries are rejected by the guard. -/
theorem submitValidation_witness :
    queryInvalid demoSubmitBody.query = false ∧
    postTasks 5 emptyQueue "id-1" demoSubmitBody 0 =
      (.accepted "id-1",
       { jobs := [freshMemJob "id-1" (submittedData 5 demoSubmitBody) 0],
         pendingStarts := ["id-1"] }) :=
  ⟨by decide,
    (submitValidation 5 emptyQueue "id-1" demoSubmitBody 0).2.1 (by decide)⟩

/-- Claim C9: in fake mode any payload with a non-empty (after trimming)
query succeeds deterministically with no browser or network interaction:
the event trace holds only file writes (no page, navigation or browser
events), the summary's query equals the trimmed input query, its article
list is exactly the one canned placeholder article, and two runs with the
same query and locale — whatever their oracles, job ids or clocks — produce
the same summary shape (query, locale, search URL, articles). -/
theorem fakeModeDeterministic
    (cfg : CaptureCfg) (o o' : RealOracle) (san san' : String → String)
    (id₁ id₂ : String) (d d' : JobData) (t t' : Int)
    (hm : cfg.fakeMode = true) (hq : jsTrim d.query ≠ "")
    (hq2 : d'.query = d.query) (hl : d'.locale = d.locale) :
    ((captureSearch cfg o san id₁ d t).2.all isFileWriteEvent = true) ∧
    (∀ s, (captureSearch cfg o san id₁ d t).1 = .ok s →
      s.query = jsTrim d.query ∧
      s.articles = [placeholderArticle (jsTrim d.query)] ∧
      s.articles.length = 1) ∧
    (∀ s s', (captureSearch cfg o san id₁ d t).1 = .ok s →
      (captureSearch cfg o' san' id₂ d' t').1 = .ok s' →
      summaryShape s = summaryShape s') := by
  have hq0 : (d.query = "") = False :=
    eq_false (fun h => hq (by rw [h]; rfl))
  have hq0' : (d'.query = "") = False := by rw [hq2]; exact hq0
  refine ⟨?_, ?_, ?_⟩
  · unfold captureSearch
    simp [hm, hq0, hq]
    simp [isFileWriteEvent]
  · intro s hs
    unfold captureSearch at hs
    simp [hm, hq0, hq] at hs
    rw [← hs]
    refine ⟨rfl, rfl, rfl⟩
  · intro s s' hs hs'
    unfold captureSearch at hs hs'
    simp [hm, hq0, hq] at hs
    simp [hm, hq0, hq0', hq2, hq] at hs'
    rw [← hs, ← hs']
    simp [summaryShape, mkSummary, hq2, hl]

/-- Witness for C9: two fake-mode runs with different ids, clocks and
oracles agree on the summary shape, and the summary of the first names the
trimmed query with exactly the canned article. -/
theorem fakeModeDeterministic_witness :
    ((captureSearch demoCaptureCfg demoOracle (fun s => s) "job-1" demoJobData 0).2.all
        isFileWriteEvent = true) ∧
    (∀ s s', (captureSearch demoCaptureCfg demoOracle (fun s => s) "job-1" demoJobData 0).1 =
        .ok s →
      (captureSearch demoCaptureCfg demoLeakOracle (fun s => s ++ "!") "job-2"
          demoJobData 99).1 = .ok s' →
      summaryShape s = summaryShape s') :=
  ⟨(fakeModeDeterministic demoCaptureCfg demoOracle demoLeakOracle (fun s => s)
      (fun s => s ++ "!") "job-1" "job-2" demoJobData demoJobData 0 99 rfl (by decide)
      rfl rfl).1,
   (fakeModeDeterministic demoCaptureCfg demoOracle demoLeakOracle (fun s => s)
      (fun s => s ++ "!") "job-1" "job-2" demoJobData demoJobData 0 99 rfl (by decide)
      rfl rfl).2.2⟩


/-- Auxiliary: sweeping a directory of plain files keeps exactly the files
whose modification time is not older than the cutoff, in order. -/
theorem pruneEntries_flatFiles (c : Int) (l : List (String × Int)) :
    pruneEntries c (flatFiles l) = flatFiles (l.filter (fun f => !(f.2 < c))) := by
  induction l with
  | nil => simp [flatFiles, pruneEntries]
  | cons f l ih =>
    by_cases h : f.2 < c <;>
      simp [flatFiles, pruneEntries, pruneTree, h, ih]

/-- Auxiliary: a flat directory listing is empty only for the empty list. -/
theorem flatFiles_eq_nil (l : List (String × Int)) :
    flatFiles l = .nil ↔ l = [] := by
  cases l <;> simp [flatFiles]

/-- Auxiliary: the sweep on the artifact-store layout (job directories of
plain files): stale directories disappear wholesale, fresh directories keep
exactly their fresh files, directories left empty disappear. -/
theorem pruneEntries_layout (c : Int)
    (root : List (String × Int × List (String × Int))) :
    pruneEntries c (jobDirLayout root) = jobDirLayout (jobDirLayoutPruned c root) := by
  induction root with
  | nil => simp [jobDirLayout, jobDirLayoutPruned, pruneEntries]
  | cons d rest ih =>
    by_cases hm : d.2.1 < c
    · simp [jobDirLayout, jobDirLayoutPruned, pruneEntries, pruneTree, hm, ih]
    · rcases hf : d.2.2.filter (fun f => !(f.2 < c)) with _ | ⟨f, fs⟩
      · have hnil : pruneEntries c (flatFiles d.2.2) = .nil := by
          rw [pruneEntries_flatFiles, hf]
          rfl
        simp [jobDirLayout, jobDirLayoutPruned, pruneEntries, pruneTree, hm, hnil, hf, ih]
      · have hcons : pruneEntries c (flatFiles d.2.2) = flatFiles (f :: fs) := by
          rw [pruneEntries_flatFiles, hf]
        simp [jobDirLayout, jobDirLayoutPruned, pruneEntries, pruneTree, hm, hcons,
          hf, flatFiles, ih]

/-- Claim C7 counterexample: a sweep can remove a file whose modification
time is still inside the retention window — a job directory whose own mtime
is older than the cutoff is removed wholesale, together with an artifact
file inside it whose mtime is fresh (directory mtime 0, file mtime 100,
cutoff 50: the file is not older than the cutoff, yet the sweep deletes
everything). -/
theorem retentionSweep_cex :
    filesEntries []
        (.cons "job" (.dir 0 (.cons "page.html" (.file 100) .nil)) .nil) =
      [(["job", "page.html"], 100)] ∧
    ¬((100 : Int) < 50) ∧
    pruneRoot 50 (.cons "job" (.dir 0 (.cons "page.html" (.file 100) .nil)) .nil) =
      .nil ∧
    filesEntries []
        (pruneRoot 50
          (.cons "job" (.dir 0 (.cons "page.html" (.file 100) .nil)) .nil)) = [] := by
  refine ⟨by decide, by decide, by decide, by decide⟩

/-- Claim C7 amended: a direct child of the artifact root is removed exactly
when its own mtime is older than now − retentionWindow (so a file at
retentionWindow − 1 minute survives and one at retentionWindow + 1 minute is
removed); a sub-directory whose own mtime is older than the cutoff is
removed wholesale with its entire contents, even files still inside the
window; a sub-directory still inside the window keeps exactly its
non-expired files and is itself removed once left empty. -/
theorem retentionSweep_amended (c m : Int)
    (root : List (String × Int × List (String × Int))) :
    pruneRoot c (jobDirLayout root) = jobDirLayout (jobDirLayoutPruned c root) ∧
    pruneTree c (.file (c + 60000)) = some (.file (c + 60000)) ∧
    pruneTree c (.file (c - 60000)) = none ∧
    ((m < c) = false → pruneTree c (.file m) = some (.file m)) ∧
    ((m < c) = true → pruneTree c (.file m) = none) := by
  refine ⟨pruneEntries_layout c root, ?_, ?_, ?_, ?_⟩
  · simp [pruneTree]
  · simp [pruneTree]
  · intro h
    simp [pruneTree, h]
  · intro h
    simp [pruneTree, h]

/-- Witness for the C7 amendment on a concrete layout: a stale job directory
vanishes with its fresh file, a fresh directory keeps its fresh file and
loses its stale one, and the one-minute boundary behaves as stated. -/
theorem retentionSweep_amended_witness :
    pruneRoot 50
        (jobDirLayout
          [("stale", 0, [("page.html", 100)]),
           ("fresh", 60, [("page.html", 100), ("old.png", 10)])]) =
      jobDirLayout [("fresh", 60, [("page.html", 100)])] ∧
    pruneTree 50 (.file 49) = none ∧
    pruneTree 50 (.file 50) = some (.file 50) := by
  have h := retentionSweep_amended 50 49
    [("stale", 0, [("page.html", 100)]),
     ("fresh", 60, [("page.html", 100), ("old.png", 10)])]
  refine ⟨?_, h.2.2.2.2 (by decide), ?_⟩
  · rw [h.1]
    decide
  · have h2 := retentionSweep_amended 50 50
      ([] : List (String × Int × List (String × Int)))
    exact h2.2.2.2.1 (by decide)

end AdverseMedia
